import Mathlib

/-!
# Verification of the headcrab-dap framing and classification layer

A shallow embedding of the wire-level framing (header codec, frame reader),
message-classification, and listener-loop code of the `headcrab-dap` crate
(`src/lib.rs`, `src/header.rs`, `src/message.rs`, `src/adapter.rs`), together
with theorems settling the specification's claims about it.

Conventions of the embedding:
* Byte streams are `List Char` (all inputs exercised are ASCII; `BufRead`'s
  UTF-8 decoding errors are out of scope).
* Stateful readers (`&mut R: BufRead`) become explicit state passing: every
  reading function returns its result together with the remaining stream.
* Fallible Rust functions returning `Result<T, Error>` become
  `Except Error T`; `usize` becomes `Nat` (overflow of `Content-Length`
  values is not exercised by any claim).
* `todo!()` and `.expect(..)` panics are made observable through the
  `PResult` type below.
* `serde_json` is an external crate; it is embedded by an executable JSON
  parser over the fragment the crate exercises (escape-free-or-simple-escape
  strings, integer numerals, arrays, objects without duplicate keys) and by
  value-level deserializers transcribed field-by-field from the crate's
  `#[derive(Deserialize)]` struct declarations.
-/

namespace HeadcrabDap

/-- Convert a Lean string literal to the `List Char` byte-stream model. -/
def cs (s : String) : List Char := s.data

/-! ## Error type

`src/lib.rs` lines 10-18: `enum Error { Invalid, Io(io::Error), InvalidJson(serde_json::Error) }`.
The snapshot in `src/header.rs`/`src/adapter.rs` names the first variant
`BadMessage`; the role is identical and it is embedded as `invalid`.
`serde_json::Error` exposes `classify() : Category`; the two categories the
crate can produce are kept inside `invalidJson`.  serde's `Syntax` and `Eof`
categories (both meaning malformed JSON text) are modelled together as `syn`;
shape violations (missing field, wrong type) are `data`. -/

/-- Category of a `serde_json::Error` (`serde_json::error::Category`),
restricted to the two causes the crate distinguishes. -/
inductive JsonCat
  | syn
  | data
deriving DecidableEq, Repr

/-- The crate's `Error` enum (`src/lib.rs` 10-18). `ioError` models
`Error::Io(io::Error)`; the only I/O failure arising in the pure model is
`read_exact` hitting end-of-stream (`io::ErrorKind::UnexpectedEof`). -/
inductive Error
  | invalid
  | ioError
  | invalidJson (cat : JsonCat)
deriving DecidableEq, Repr

/-- Result of a Rust function that may panic (`todo!()`, `.expect(..)`)
in addition to returning `Ok`/`Err`. -/
inductive PResult (α : Type)
  | ok (a : α)
  | err (e : Error)
  | panic

/-! ## Text utilities used by the header codec -/

/-- `BufRead::read_line`: consume up to and including the first `'\n'`
(or to end of stream), returning the line and the remaining stream. -/
def readLine : List Char → List Char × List Char
  | [] => ([], [])
  | c :: rest =>
    if c = '\n' then ([c], rest)
    else
      let p := readLine rest
      (c :: p.1, p.2)

/-- `str::split(':')`: split a line at every `':'` (separators dropped,
empty segments kept, one extra empty segment for a trailing separator). -/
def splitCols : List Char → List (List Char)
  | [] => [[]]
  | c :: rest =>
    if c = ':' then [] :: splitCols rest
    else
      match splitCols rest with
      | [] => [[c]]
      | p :: ps => (c :: p) :: ps

/-- `str::trim`: drop whitespace from both ends (`Char.isWhitespace` covers
the ASCII fragment of Rust's Unicode `char::is_whitespace`). -/
def trimChars (s : List Char) : List Char :=
  ((s.dropWhile Char.isWhitespace).reverse.dropWhile Char.isWhitespace).reverse

/-- Decimal digits to the number they denote (most significant first). -/
def digitsToNat (l : List Char) : Nat :=
  l.foldl (fun a c => a * 10 + (c.toNat - '0'.toNat)) 0

/-- `usize::from_str_radix(s, 10)` / `str::parse::<usize>()`: an optional
leading `'+'` followed by one or more decimal digits (overflow unmodelled). -/
def parseNat (s : List Char) : Option Nat :=
  let digits := match s with
    | '+' :: rest => rest
    | _ => s
  if digits ≠ [] ∧ digits.all Char.isDigit then some (digitsToNat digits) else none

/-! ## Header codec (`src/lib.rs` 20-133, `src/header.rs` 5-91) -/

/-- `enum HeaderField { ContentLength(usize), Other { name, value } }`
(`src/lib.rs` 82-90; named `Len`/`Other` in `src/header.rs`). -/
inductive HeaderField
  | contentLength (n : Nat)
  | other (name : String) (value : String)
deriving DecidableEq, Repr

/-- `struct Header { content_length: usize, fields: Vec<HeaderField> }`
(`src/lib.rs` 25-30; `len`/`fields` in `src/header.rs`). -/
structure Header where
  content_length : Nat
  fields : List HeaderField
deriving DecidableEq, Repr

/-- `HeaderField::specialize` (`src/lib.rs` 93-101): an `Other` field named
`Content-Length` must have a decimal value and becomes `ContentLength`. -/
def HeaderField.specialize : HeaderField → Except Error HeaderField
  | .other name value =>
    if name = "Content-Length" then
      match parseNat value.data with
      | some n => .ok (.contentLength n)
      | none => .error .invalid
    else .ok (.other name value)
  | f => .ok f

/-- The line-classification part of `HeaderField::from_input`
(`src/lib.rs` 103-132, `src/header.rs` 61-90): split the line at `':'`,
trim each part, drop empty parts; three or more parts or exactly one part
is an error, zero parts is the end-of-header marker, two parts form a
(specialized) field. -/
def headerFieldFromLine (line : List Char) : Except Error (Option HeaderField) :=
  match ((splitCols line).map trimChars).filter (fun p => !p.isEmpty) with
  | [] => .ok none
  | [name, value] =>
    match HeaderField.specialize (.other ⟨name⟩ ⟨value⟩) with
    | .ok f => .ok (some f)
    | .error e => .error e
  | _ => .error .invalid

/-- `HeaderField::from_input` (`src/lib.rs` 103-132): read one line and
classify it. -/
def HeaderField.fromInput (input : List Char) :
    Except Error (Option HeaderField) × List Char :=
  let p := readLine input
  (headerFieldFromLine p.1, p.2)

/-- The field-collection loop of `Header::from_input` (`src/lib.rs` 48-53),
with fuel for structural termination; each iteration that continues consumes
at least one character, so `input.length + 1` fuel always suffices (the
fuel-exhausted branch is unreachable from `headerFields`). -/
def headerFieldsAux : Nat → List Char → Except Error (List HeaderField) × List Char
  | 0, input => (.ok [], input)
  | fuel + 1, input =>
    match HeaderField.fromInput input with
    | (.error e, rest) => (.error e, rest)
    | (.ok none, rest) => (.ok [], rest)
    | (.ok (some f), rest) =>
      match headerFieldsAux fuel rest with
      | (.error e, rest') => (.error e, rest')
      | (.ok fs, rest') => (.ok (f :: fs), rest')

/-- The `while let Some(field) = HeaderField::from_input(input)?` loop of
`Header::from_input`: collect fields until the end-of-header marker. -/
def headerFields (input : List Char) : Except Error (List HeaderField) × List Char :=
  headerFieldsAux (input.length + 1) input

/-- The `find_map` in `Header::from_raw_fields` (`src/lib.rs` 36-39):
value of the first `ContentLength` field, if any. -/
def findContentLength : List HeaderField → Option Nat
  | [] => none
  | .contentLength n :: _ => some n
  | _ :: rest => findContentLength rest

/-- `Header::from_raw_fields` (`src/lib.rs` 34-45, `src/header.rs` 19-27):
succeeds iff some field resolved to `ContentLength`, taking the first one. -/
def Header.fromRawFields (fields : List HeaderField) : Option Header :=
  match findContentLength fields with
  | some n => some ⟨n, fields⟩
  | none => none

/-- `Header::from_input` (`src/lib.rs` 47-56, `Header::read_from` in
`src/header.rs` 29-38): collect fields up to the blank line, then
`from_raw_fields(fields).ok_or(Error::Invalid)`. -/
def Header.fromInput (input : List Char) : Except Error Header × List Char :=
  match headerFields input with
  | (.error e, rest) => (.error e, rest)
  | (.ok fields, rest) =>
    match Header.fromRawFields fields with
    | some h => (.ok h, rest)
    | none => (.error .invalid, rest)

/-- `Header::new` (`src/lib.rs` 58-61) before its `.expect(..)`:
`from_raw_fields(vec![ContentLength(len)])`; `none` would panic. -/
def Header.new (len : Nat) : Option Header :=
  Header.fromRawFields [HeaderField.contentLength len]

/-- One serialized header-field line of `impl Into<String> for Header`
(`src/lib.rs` 67-76): `name:value` followed by `\r\n`, the reserved field's
value being its decimal byte count (`format!("..", value)`). -/
def HeaderField.line : HeaderField → List Char
  | .contentLength n => cs "Content-Length:" ++ Nat.toDigits 10 n ++ cs "\r\n"
  | .other name value => name.data ++ ':' :: value.data ++ cs "\r\n"

/-- `impl Into<String> for Header` (`src/lib.rs` 64-80): each field line in
order, then `output.push_str("\x7b\x7d:\x7b\x7d\r\n")` — the source pushes that
literal text (an unfilled format template), not a blank line. -/
def Header.intoString (h : Header) : List Char :=
  (h.fields.map HeaderField.line).flatten ++ cs "\x7b\x7d:\x7b\x7d\r\n"

/-! ## JSON values and the `serde_json` text parser

`serde_json::Value` restricted to the fragment the crate exercises:
integer numerals (no floats/exponents) and strings with at most the simple
escapes; objects reject duplicate keys (where real `serde_json` lets the
last duplicate win for `Value` but rejects duplicates in typed parses —
no claim exercises duplicate keys). -/

/-- `serde_json::Value` (integer-numeral fragment). -/
inductive Json
  | null
  | bool (b : Bool)
  | num (n : Int)
  | str (s : String)
  | arr (elems : List Json)
  | obj (fields : List (String × Json))

/-- Skip JSON whitespace (space, tab, carriage return, newline). -/
def skipWs (s : List Char) : List Char :=
  s.dropWhile Char.isWhitespace

/-- Parse the remainder of a JSON string literal (opening quote already
consumed), handling the simple escapes; `\u` escapes are outside the model. -/
def pStringChars : List Char → Option (List Char × List Char)
  | [] => none
  | c :: rest =>
    if c = '"' then some ([], rest)
    else if c = '\\' then
      match rest with
      | [] => none
      | e :: rest2 =>
        match
          (if e = '"' then some '"'
           else if e = '\\' then some '\\'
           else if e = '/' then some '/'
           else if e = 'n' then some '\n'
           else if e = 't' then some '\t'
           else if e = 'r' then some '\r'
           else none) with
        | none => none
        | some d =>
          match pStringChars rest2 with
          | some (s, r) => some (d :: s, r)
          | none => none
    else
      match pStringChars rest with
      | some (s, r) => some (c :: s, r)
      | none => none

/-- Parse a digit run into a `Nat`, rejecting leading zeros as JSON does. -/
def pDigits (s : List Char) : Option (Nat × List Char) :=
  let ds := s.takeWhile Char.isDigit
  if ds.isEmpty then none
  else if 1 < ds.length ∧ ds.headD '0' = '0' then none
  else some (digitsToNat ds, s.dropWhile Char.isDigit)

/-- Recursive-descent JSON value parser with structural fuel.  Object and
array member loops recurse through `pVal` itself on the stream re-prefixed
with the opening bracket, so the whole parser is a single structurally
recursive function whose results reduce definitionally.  Trailing commas and
duplicate object keys are rejected, as `serde_json` does for typed parses. -/
def pVal : Nat → List Char → Option (Json × List Char)
  | 0, _ => none
  | fuel + 1, input =>
    match skipWs input with
    | [] => none
    | c :: rest =>
      if c = '\x7b' then
        match skipWs rest with
        | '\x7d' :: r => some (.obj [], r)
        | '"' :: r =>
          match pStringChars r with
          | none => none
          | some (k, r2) =>
            match skipWs r2 with
            | ':' :: r3 =>
              match pVal fuel r3 with
              | none => none
              | some (v, r4) =>
                match skipWs r4 with
                | ',' :: r5 =>
                  match skipWs r5 with
                  | '"' :: _ =>
                    match pVal fuel ('\x7b' :: skipWs r5) with
                    | some (.obj ms, r6) =>
                      if ms.any (fun m => m.1 = (⟨k⟩ : String)) then none
                      else some (.obj ((⟨k⟩, v) :: ms), r6)
                    | _ => none
                  | _ => none
                | '\x7d' :: r5 => some (.obj [(⟨k⟩, v)], r5)
                | _ => none
            | _ => none
        | _ => none
      else if c = '[' then
        match skipWs rest with
        | ']' :: r => some (.arr [], r)
        | _ =>
          match pVal fuel rest with
          | none => none
          | some (v, r2) =>
            match skipWs r2 with
            | ',' :: r3 =>
              match skipWs r3 with
              | ']' :: _ => none
              | _ =>
                match pVal fuel ('[' :: skipWs r3) with
                | some (.arr vs, r4) => some (.arr (v :: vs), r4)
                | _ => none
            | ']' :: r3 => some (.arr [v], r3)
            | _ => none
      else if c = '"' then
        match pStringChars rest with
        | some (s, r) => some (.str ⟨s⟩, r)
        | none => none
      else if c = '-' then
        match pDigits rest with
        | some (n, r) => some (.num (-(n : Int)), r)
        | none => none
      else if c.isDigit then
        match pDigits (c :: rest) with
        | some (n, r) => some (.num (n : Int), r)
        | none => none
      else if c = 't' then
        match rest with
        | 'r' :: 'u' :: 'e' :: r => some (.bool true, r)
        | _ => none
      else if c = 'f' then
        match rest with
        | 'a' :: 'l' :: 's' :: 'e' :: r => some (.bool false, r)
        | _ => none
      else if c = 'n' then
        match rest with
        | 'u' :: 'l' :: 'l' :: r => some (.null, r)
        | _ => none
      else none

/-- `serde_json::from_slice::<Value>`: parse a whole buffer as one JSON
value, allowing trailing whitespace only.  `none` models a serde error of
the `Syntax`/`Eof` categories. -/
def parseJson (s : List Char) : Option Json :=
  match pVal (s.length + 1) s with
  | some (j, r) => if (skipWs r).isEmpty then some j else none
  | none => none

/-! ## Value-level deserializers

Transcribed from the crate's `#[derive(Deserialize)]` struct declarations.
serde shape violations (missing required field, wrong type, duplicate
field) carry category `Data`; unknown JSON fields are ignored, `null` for
an `Option` field is `none`. -/

/-- Look up a field of a JSON object (`serde_json` object field access). -/
def getField (fields : List (String × Json)) (name : String) : Option Json :=
  (fields.find? (fun p => p.1 = name)).map (fun p => p.2)

/-- Deserialize a `usize` (non-negative integer). -/
def deNat : Json → Except JsonCat Nat
  | .num n => if n < 0 then .error .data else .ok n.toNat
  | _ => .error .data

/-- Deserialize a `String`. -/
def deString : Json → Except JsonCat String
  | .str s => .ok s
  | _ => .error .data

/-- Deserialize a `bool`. -/
def deBool : Json → Except JsonCat Bool
  | .bool b => .ok b
  | _ => .error .data

/-- A required field: missing is a `Data` error (serde `missing field`). -/
def reqField (fields : List (String × Json)) (name : String) : Except JsonCat Json :=
  match getField fields name with
  | some v => .ok v
  | none => .error .data

/-- A field declared with `#[serde(alias = ..)]`: accepted under the Rust
field name or the alias; both present is a serde `duplicate field` error. -/
def aliasField (fields : List (String × Json)) (name alias_ : String) :
    Except JsonCat (Option Json) :=
  match getField fields name, getField fields alias_ with
  | some _, some _ => .error .data
  | some v, none => .ok (some v)
  | none, some v => .ok (some v)
  | none, none => .ok none

/-- Deserialize an `Option<T>` field value: `null` (or absent, handled by
the caller) is `none`. -/
def deOpt (de : Json → Except JsonCat α) : Option Json → Except JsonCat (Option α)
  | none => .ok none
  | some .null => .ok none
  | some v => (de v).map some

/-- `struct GenericMessageSerde { seq: usize, #[serde(rename = "type")] message_type: String }`
(`src/lib.rs` 159-166; `MessageSerde` in `src/message.rs` 48-55). -/
structure GenericMessageSerde where
  seq : Nat
  message_type : String
deriving DecidableEq, Repr

/-- Deserializer derived for `GenericMessageSerde`: an object with required
`seq : usize` and `type : String`. -/
def genericMessageSerdeFromJson : Json → Except JsonCat GenericMessageSerde
  | .obj fields =>
    match getField fields "seq", getField fields "type" with
    | some sv, some tv =>
      match deNat sv, deString tv with
      | .ok n, .ok t => .ok ⟨n, t⟩
      | .error c, _ => .error c
      | _, .error c => .error c
    | none, _ => .error .data
    | _, none => .error .data
  | _ => .error .data

/-- `struct GenericMessage { info: GenericMessageSerde, raw_value: Value }`
(`src/lib.rs` 153-157; fields named `serde`/`value` in `src/message.rs`). -/
structure GenericMessage where
  info : GenericMessageSerde
  raw_value : Json

/-- `GenericMessage::seq` (`src/lib.rs` 136-138). -/
def GenericMessage.seq (m : GenericMessage) : Nat := m.info.seq

/-- `GenericMessage::message_type` (`src/lib.rs` 140-142). -/
def GenericMessage.message_type (m : GenericMessage) : String := m.info.message_type

/-- `GenericMessage::parse` (`src/message.rs` 68-73): one buffer parsed
once as a raw `Value` (syntax errors) and once as the envelope struct
(shape errors; the second parse of the same bytes cannot fail syntactically
when the first succeeded, so it is taken from the parsed value). -/
def GenericMessage.parse (input : List Char) : Except Error GenericMessage :=
  match parseJson input with
  | none => .error (.invalidJson .syn)
  | some v =>
    match genericMessageSerdeFromJson v with
    | .error c => .error (.invalidJson c)
    | .ok info => .ok ⟨info, v⟩

/-! ## Request specialization (`src/lib.rs` 203-342, 480-532) -/

/-- `struct GenericRequestSerde { command: String, arguments: Option<Value> }`
(`src/lib.rs` 209-223). -/
structure GenericRequestSerde where
  command : String
  arguments : Option Json

/-- Deserializer derived for `GenericRequestSerde`. -/
def genericRequestSerdeFromJson : Json → Except JsonCat GenericRequestSerde
  | .obj fields =>
    match getField fields "command" with
    | none => .error .data
    | some cv =>
      match deString cv with
      | .error c => .error c
      | .ok command =>
        match deOpt .ok (getField fields "arguments") with
        | .error c => .error c
        | .ok args => .ok ⟨command, args⟩
  | _ => .error .data

/-- `struct GenericRequest { serde: GenericRequestSerde, value: Value }`
(`src/lib.rs` 203-207). -/
structure GenericRequest where
  serde : GenericRequestSerde
  value : Json

/-- `enum PathFormat { Path, Url, Other(String) }` with lowercase aliases
(`src/lib.rs` 542-549). -/
inductive PathFormat
  | path
  | url
  | other (s : String)

/-- Deserializer derived for `PathFormat`: a unit variant from its name or
alias, the newtype variant externally tagged. -/
def dePathFormat : Json → Except JsonCat PathFormat
  | .str s =>
    if s = "Path" ∨ s = "path" then .ok .path
    else if s = "Url" ∨ s = "url" then .ok .url
    else .error .data
  | .obj [(k, .str s)] => if k = "Other" then .ok (.other s) else .error .data
  | _ => .error .data

/-- `struct InitializeRequestArguments` (`src/lib.rs` 344-425): the
mandatory `adapter_id : String` (alias `adapterID`) plus twelve optional
fields, each accepted under its Rust name or its `#[serde(alias = ..)]`. -/
structure InitializeRequestArguments where
  client_id : Option String
  client_name : Option String
  adapter_id : String
  locale : Option String
  lines_start_at1 : Option Bool
  columns_start_at1 : Option Bool
  path_format : Option PathFormat
  supports_variable_type : Option Bool
  supports_variable_paging : Option Bool
  supports_run_in_terminal_request : Option Bool
  supports_memory_references : Option Bool
  supports_progress_reporting : Option Bool
  supports_invalidated_event : Option Bool

/-- Deserializer derived for `InitializeRequestArguments` (`src/lib.rs`
344-425): `adapter_id`/`adapterID` is required, everything else optional. -/
def initializeRequestArgumentsFromJson : Json → Except JsonCat InitializeRequestArguments
  | .obj fields => do
    let client_id ← deOpt deString (← aliasField fields "client_id" "clientID")
    let client_name ← deOpt deString (← aliasField fields "client_name" "clientName")
    let adapter_id ←
      match ← aliasField fields "adapter_id" "adapterID" with
      | some v => deString v
      | none => .error .data
    let locale ← deOpt deString (getField fields "locale")
    let lines_start_at1 ← deOpt deBool (← aliasField fields "lines_start_at1" "linesStartAt1")
    let columns_start_at1 ← deOpt deBool (← aliasField fields "columns_start_at1" "columnStartAt1")
    let path_format ← deOpt dePathFormat (← aliasField fields "path_format" "pathFormat")
    let svt ← deOpt deBool (← aliasField fields "supports_variable_type" "supportsVariableType")
    let svp ← deOpt deBool (← aliasField fields "supports_variable_paging" "supportVariablePaging")
    let srit ← deOpt deBool
      (← aliasField fields "supports_run_in_terminal_request" "supportsRunInTerminalRequest")
    let smr ← deOpt deBool
      (← aliasField fields "supports_memory_references" "supportsMemoryReferences")
    let spr ← deOpt deBool
      (← aliasField fields "supports_progress_reporting" "supportsProgressReporting")
    let sie ← deOpt deBool
      (← aliasField fields "supports_invalidated_event" "supportsInvalidatedEvent")
    .ok ⟨client_id, client_name, adapter_id, locale, lines_start_at1, columns_start_at1,
         path_format, svt, svp, srit, smr, spr, sie⟩
  | _ => .error .data

/-- `struct InitializeRequestSerde { #[serde(flatten)] request: GenericRequestSerde,
arguments: InitializeRequestArguments }` (`src/lib.rs` 325-330).  With
`flatten`, all fields come from the same object; the outer struct consumes
`arguments` by name first, so the flattened `GenericRequestSerde` sees no
`arguments` left and its `Option<Value>` field is `None`. -/
structure InitializeRequestSerde where
  request : GenericRequestSerde
  arguments : InitializeRequestArguments

/-- Deserializer derived for `InitializeRequestSerde`. -/
def initializeRequestSerdeFromJson : Json → Except JsonCat InitializeRequestSerde
  | .obj fields => do
    let command ←
      match getField fields "command" with
      | some cv => deString cv
      | none => .error .data
    let args ←
      match getField fields "arguments" with
      | some av => initializeRequestArgumentsFromJson av
      | none => .error .data
    .ok ⟨⟨command, none⟩, args⟩
  | _ => .error .data

/-- `struct InitializeRequest { serde: InitializeRequestSerde, value: Value }`
(`src/lib.rs` 319-323). -/
structure InitializeRequest where
  serde : InitializeRequestSerde
  value : Json

/-- `impl TryFrom<Value> for InitializeRequest` (`src/lib.rs` 332-342). -/
def InitializeRequest.tryFrom (value : Json) : Except Error InitializeRequest :=
  match initializeRequestSerdeFromJson value with
  | .ok serde => .ok ⟨serde, value⟩
  | .error c => .error (.invalidJson c)

/-- `struct DisconnectArguments` (`src/lib.rs` 502-523): three optional
booleans (`restart`, `terminateDebuggee`, `suspendDebuggee`; the latter two
`#[serde(rename = ..)]` so only the camelCase names are accepted). -/
structure DisconnectArguments where
  restart : Option Bool
  terminate_debuggee : Option Bool
  suspend_debuggee : Option Bool

/-- Deserializer derived for `DisconnectArguments`. -/
def disconnectArgumentsFromJson : Json → Except JsonCat DisconnectArguments
  | .obj fields => do
    let restart ← deOpt deBool (getField fields "restart")
    let td ← deOpt deBool (getField fields "terminateDebuggee")
    let sd ← deOpt deBool (getField fields "suspendDebuggee")
    .ok ⟨restart, td, sd⟩
  | _ => .error .data

/-- `struct DisconnectRequestSerde { #[serde(flatten)] request: GenericRequestSerde,
arguments: Option<DisconnectArguments> }` (`src/lib.rs` 494-499). -/
structure DisconnectRequestSerde where
  request : GenericRequestSerde
  arguments : Option DisconnectArguments

/-- Deserializer derived for `DisconnectRequestSerde` (the flattened
`GenericRequestSerde` again sees no `arguments` left). -/
def disconnectRequestSerdeFromJson : Json → Except JsonCat DisconnectRequestSerde
  | .obj fields => do
    let command ←
      match getField fields "command" with
      | some cv => deString cv
      | none => .error .data
    let args ← deOpt disconnectArgumentsFromJson (getField fields "arguments")
    .ok ⟨⟨command, none⟩, args⟩
  | _ => .error .data

/-- `struct DisconnectRequest { serde: DisconnectRequestSerde, value: Value }`
(`src/lib.rs` 488-492). -/
structure DisconnectRequest where
  serde : DisconnectRequestSerde
  value : Json

/-- `impl TryFrom<Value> for DisconnectRequest` (`src/lib.rs` 525-532). -/
def DisconnectRequest.tryFrom (value : Json) : Except Error DisconnectRequest :=
  match disconnectRequestSerdeFromJson value with
  | .ok serde => .ok ⟨serde, value⟩
  | .error c => .error (.invalidJson c)

/-- `enum Request { Initialize(..), Disconnect(..), Generic(..) }`
(`src/lib.rs` 249-254). -/
inductive Request
  | Initialize (r : InitializeRequest)
  | Disconnect (d : DisconnectRequest)
  | generic (g : GenericRequest)

/-- `GenericRequest::new` (`src/lib.rs` 226-229): deserialize the Kind-level
view from the retained value (`serde_json::from_value` failures there are
`Data`-category errors). -/
def GenericRequest.new (value : Json) : Except Error GenericRequest :=
  match genericRequestSerdeFromJson value with
  | .ok serde => .ok ⟨serde, value⟩
  | .error c => .error (.invalidJson c)

/-- `GenericRequest::into_specialized` (`src/lib.rs` 239-246): dispatch on
`command`; unknown commands stay at the Kind level. -/
def GenericRequest.intoSpecialized (g : GenericRequest) : Except Error Request :=
  if g.serde.command = "initialize" then
    (InitializeRequest.tryFrom g.value).map .Initialize
  else if g.serde.command = "disconnect" then
    (DisconnectRequest.tryFrom g.value).map .Disconnect
  else .ok (.generic g)

/-- `impl TryFrom<Value> for Request` (`src/lib.rs` 256-263). -/
def Request.tryFrom (value : Json) : Except Error Request :=
  match GenericRequest.new value with
  | .ok g => g.intoSpecialized
  | .error e => .error e

/-! ## Top-level message reading (`src/lib.rs` 135-201) -/

/-- `enum Message { Request(Request), Generic(GenericMessage) }`
(`src/lib.rs` 168-171). -/
inductive Message
  | request (r : Request)
  | generic (m : GenericMessage)

/-- `GenericMessage::into_specialize` (`src/lib.rs` 144-151): the
`"request"` and `"response"` arms are `todo!()` — they panic. -/
def GenericMessage.intoSpecialize (m : GenericMessage) : PResult Message :=
  if m.info.message_type = "request" then .panic
  else if m.info.message_type = "response" then .panic
  else .ok (.generic m)

/-- `GenericMessage::from_input` (`src/lib.rs` 189-201): parse the header,
`read_exact` a buffer of `content_length` bytes (failing with an I/O error —
`UnexpectedEof` — when the stream ends early, having consumed what was
left), then parse the buffer as in `GenericMessage::parse`. -/
def GenericMessage.fromInput (input : List Char) :
    Except Error GenericMessage × List Char :=
  match Header.fromInput input with
  | (.error e, rest) => (.error e, rest)
  | (.ok header, rest) =>
    if header.content_length ≤ rest.length then
      (GenericMessage.parse (rest.take header.content_length),
       rest.drop header.content_length)
    else (.error .ioError, [])

/-- `Message::read_from` (`src/lib.rs` 173-178): frame read then
specialization (which may hit `todo!()`). -/
def Message.readFrom (input : List Char) : PResult Message :=
  match (GenericMessage.fromInput input).1 with
  | .error e => .err e
  | .ok m => m.intoSpecialize

/-! ## Session listener (`src/adapter.rs` 41-67) -/

/-- Modelled from the spec: `Listener::next_msg` deserializes the body with
`json::from_slice::<dap_type::Message>`, and `dap_type::Message`'s
`Deserialize` impl is not under `src/` (the `dap_type.rs` present holds only
plain DTO structs).  Per spec §4.3 classification parses the raw JSON value
and the generic `seq`/`type` envelope from the body bytes, which is
`GenericMessage::parse`. -/
def dapMessageFromSlice (buffer : List Char) : Except Error GenericMessage :=
  GenericMessage.parse buffer

/-- `Listener::next_msg` (`src/adapter.rs` 58-66): header, exact-length
body read, body deserialization; the remaining stream is wherever the
reader stopped (after the consumed lines on a header error, empty after a
short `read_exact`). -/
def Listener.nextMsg (input : List Char) :
    Except Error GenericMessage × List Char :=
  match Header.fromInput input with
  | (.error e, rest) => (.error e, rest)
  | (.ok header, rest) =>
    if header.content_length ≤ rest.length then
      (dapMessageFromSlice (rest.take header.content_length),
       rest.drop header.content_length)
    else (.error .ioError, [])

/-- The first `n` results sent by `Listener::start` (`src/adapter.rs`
51-56).  The source is `loop { let msg = self.next_msg(); self.sender.send(msg).unwrap() }`
with return type `!`: it loops unconditionally, so the produced sequence is
infinite and this function observes its prefix of length `n` (the channel
send is lossless while the receiver lives). -/
def Listener.run : Nat → List Char → List (Except Error GenericMessage)
  | 0, _ => []
  | n + 1, input =>
    let p := Listener.nextMsg input
    p.1 :: Listener.run n p.2

/-! ## Response serialization (`src/lib.rs` 442-478) -/

/-- `InitializeResponse::send_to` (`src/lib.rs` 470-477).  The
`serde_json::to_value(self.info)?.to_string()` serialization of the
response is external to the framing layer; `body` stands for its output
text (a `to_value` failure returns `Err` before anything is written, so
only successful serializations reach this point).  Writes the serialized
header — `Header::new(body.len())`, whose `.expect(..)` would surface as
`panic` — followed by the body bytes. -/
def InitializeResponse.sendTo (body : List Char) : PResult (List Char) :=
  match Header.new body.length with
  | some header => .ok (Header.intoString header ++ body)
  | none => .panic

/-! ## Concrete scenarios shared by the theorems -/

/-- A correctly framed message: `Content-Length` header, blank line, body. -/
def frameOf (body : List Char) : List Char :=
  cs "Content-Length:" ++ Nat.toDigits 10 body.length ++ cs "\r\n\r\n" ++ body

/-- The JSON value a body parses to (`Json.null` when unparsable; only
applied to bodies that do parse). -/
def jsonOf (s : List Char) : Json :=
  (parseJson s).getD .null

/-- Body of the spec's Generic-level example: an unrecognized `type`. -/
def fakeBody : List Char := cs "\x7b\"seq\":1,\"type\":\"fake\"\x7d"

/-- Body of a well-formed `initialize` request with valid arguments. -/
def initBody : List Char :=
  cs "\x7b\"seq\":1,\"type\":\"request\",\"command\":\"initialize\",\"arguments\":\x7b\"adapterID\":\"a\"\x7d\x7d"

/-- Body of an `initialize` request whose arguments lack `adapterID`. -/
def noAdapterBody : List Char :=
  cs "\x7b\"seq\":1,\"type\":\"request\",\"command\":\"initialize\",\"arguments\":\x7b\x7d\x7d"

/-- Whether a classification result is a successful `Request::Initialize`. -/
def isInitializeOk : Except Error Request → Bool
  | .ok (.Initialize _) => true
  | _ => false

/-- A header holding exactly one `Content-Length:6` field. -/
def hSix : Header := ⟨6, [.contentLength 6]⟩

/-! ## C1 -/

/-- C1: the round-trip claim fails on the code.  Serializing the valid
header with the single field `Content-Length:6` emits the literal line
`\x7b\x7d:\x7b\x7d` (an unfilled `format!` template, `src/lib.rs` line 77) instead
of the blank-line terminator, and re-parsing the serialized text yields a
header with an extra `Other("\x7b\x7d", "\x7b\x7d")` field, different from the
original: `parse(serialize(H)) ≠ H`. -/
theorem serialize_reparse_adds_template_field :
    Header.intoString hSix = cs "Content-Length:6\r\n\x7b\x7d:\x7b\x7d\r\n" ∧
    Header.fromInput (Header.intoString hSix) =
      (.ok ⟨6, [.contentLength 6, .other "\x7b\x7d" "\x7b\x7d"]⟩, []) ∧
    (⟨6, [.contentLength 6, .other "\x7b\x7d" "\x7b\x7d"]⟩ : Header) ≠ hSix :=
  ⟨rfl, rfl, by decide⟩

/-! ## C2 -/

/-- C2: reading a well-formed `initialize` request frame does not succeed —
`GenericMessage::into_specialize` (`src/lib.rs` 146) hits `todo!()` for
every message of type `"request"`, so `Message::read_from` panics, both on
valid arguments and on arguments missing `adapterID` (where the claim
expects an invalid-message data error).  The three-level classification the
claim describes exists only through `Request::try_from` on the parsed body
value, which does succeed on valid arguments and does fail with a
`Data`-category invalid-message error when `adapterID` is missing. -/
theorem read_from_initialize_hits_todo :
    Message.readFrom (frameOf initBody) = .panic ∧
    Message.readFrom (frameOf noAdapterBody) = .panic ∧
    isInitializeOk (Request.tryFrom (jsonOf initBody)) = true ∧
    Request.tryFrom (jsonOf noAdapterBody) = .error (.invalidJson .data) :=
  ⟨rfl, rfl, rfl, rfl⟩

/-! ## C3 -/

/-- A stream whose first frame is valid and whose second frame has a
corrupt `Content-Length` value. -/
def corruptSecondFrameStream : List Char :=
  frameOf fakeBody ++ cs "Content-Length:abc\r\n\r\n"

/-- C3: counterexample.  On the spec's own scenario — a valid frame
followed by a frame with corrupt `Content-Length` — the listener's first
three results are one success and then two error results: the producer
(`Listener::start`, an unconditional `loop` with return type `!`,
`src/adapter.rs` 51-56) keeps producing after the first error, so the
output contains more than one error and the first error is not the last
item produced. -/
theorem listener_produces_after_first_error :
    Listener.run 3 corruptSecondFrameStream =
      [.ok ⟨⟨1, "fake"⟩, .obj [("seq", .num 1), ("type", .str "fake")]⟩,
       .error .invalid, .error .invalid] :=
  rfl

/-- C3 (amended): the producer never terminates of itself — for every
input stream it produces a result on every iteration of the loop
(`Listener.run n` always yields exactly `n` results), so after the first
failed frame it emits that error and keeps attempting further frames,
possibly emitting further error results. -/
theorem listener_always_produces (n : Nat) (input : List Char) :
    (Listener.run n input).length = n := by
  induction n generalizing input with
  | zero => rfl
  | succ k ih => simp [Listener.run, ih]

/-! ## C4 -/

/-- C4: counterexample.  A header with two `Content-Length` fields parses
successfully — `Header::from_raw_fields` (`src/lib.rs` 36-39) uses
`find_map`, taking the first resolved value and never rejecting
duplicates — contradicting the claim that two or more `Content-Length`
fields also fail. -/
theorem duplicate_content_length_accepted :
    Header.fromInput (cs "Content-Length:1\r\nContent-Length:2\r\n\r\n") =
      (.ok ⟨1, [.contentLength 1, .contentLength 2]⟩, []) :=
  rfl

/-- C4 (amended): header parsing succeeds exactly when the parsed field
list contains at least one field resolved to `Content-Length`: with zero
such fields (including the zero-byte input) it fails with the
malformed-header error, and with several it succeeds using the first one's
value. -/
theorem header_requires_some_content_length :
    (∀ input fields rest, headerFields input = (.ok fields, rest) →
        findContentLength fields = none →
        Header.fromInput input = (.error .invalid, rest)) ∧
    Header.fromInput [] = (.error .invalid, []) ∧
    (∀ input fields rest n, headerFields input = (.ok fields, rest) →
        findContentLength fields = some n →
        Header.fromInput input = (.ok ⟨n, fields⟩, rest)) := by
  refine ⟨?_, rfl, ?_⟩ <;> intro input fields rest
  · intro hf hn
    simp [Header.fromInput, hf, Header.fromRawFields, hn]
  · intro n hf hn
    simp [Header.fromInput, hf, Header.fromRawFields, hn]

/-- C4 witness: the amended theorem applied to a header with one non-reserved
field and no `Content-Length` (fails) and to the duplicate-field header
(succeeds with the first value). -/
theorem header_requires_some_content_length_witness :
    Header.fromInput (cs "name:value\r\n\r\n") = (.error .invalid, []) ∧
    Header.fromInput (cs "Content-Length:1\r\nContent-Length:2\r\n\r\n") =
      (.ok ⟨1, [.contentLength 1, .contentLength 2]⟩, []) :=
  ⟨header_requires_some_content_length.1 _ [.other "name" "value"] [] rfl rfl,
   header_requires_some_content_length.2.2 _
     [.contentLength 1, .contentLength 2] [] 1 rfl rfl⟩

/-! ## C5 -/

/-- C5: the two bad-body causes are distinguishable from the returned
error value.  A body that is not valid JSON fails the first
`from_slice::<Value>` with a `Syntax`-category `InvalidJson` error; a body
that is valid JSON but lacks `seq` or `type` passes the first parse and
fails the envelope parse with a `Data`-category `InvalidJson` error, and
the two error values differ. -/
theorem bad_body_error_kinds_distinguished :
    (∀ input, parseJson input = none →
        GenericMessage.parse input = .error (.invalidJson .syn)) ∧
    (∀ input fields, parseJson input = some (.obj fields) →
        getField fields "seq" = none ∨ getField fields "type" = none →
        GenericMessage.parse input = .error (.invalidJson .data)) ∧
    Error.invalidJson .syn ≠ Error.invalidJson .data := by
  refine ⟨?_, ?_, by decide⟩
  · intro input h
    simp [GenericMessage.parse, h]
  · intro input fields h hf
    rcases hf with hf | hf
    · simp [GenericMessage.parse, h, genericMessageSerdeFromJson, hf]
    · rcases hs : getField fields "seq" with _ | sv <;>
        simp [GenericMessage.parse, h, genericMessageSerdeFromJson, hf, hs]

/-- C5 witness: a non-JSON body fails as a syntax error, the valid JSON
body with no envelope fields fails as a data error. -/
theorem bad_body_error_kinds_distinguished_witness :
    GenericMessage.parse (cs "x") = .error (.invalidJson .syn) ∧
    GenericMessage.parse (cs "\x7b\x7d") = .error (.invalidJson .data) :=
  ⟨bad_body_error_kinds_distinguished.1 _ rfl,
   bad_body_error_kinds_distinguished.2.1 _ [] rfl (Or.inl rfl)⟩

/-! ## C6 -/

/-- C6: counterexample.  The line `a::b` contains two `':'` separators yet
parses successfully as the field `Other("a", "b")` — the parser filters out
empty trimmed segments before counting, so extra separators adjacent only
to emptiness do not make three parts — and the line `::` (two separators,
no parts) yields the end-of-header marker; neither returns the
malformed-header error the claim requires for lines with more than one
`':'`. -/
theorem extra_separators_can_parse :
    HeaderField.fromInput (cs "a::b\r\n") = (.ok (some (.other "a" "b")), []) ∧
    headerFieldFromLine (cs "::") = .ok none :=
  ⟨rfl, rfl⟩

/-- C6 (amended): a header line is a malformed-header error when splitting
at `':'`, trimming each part, and dropping empty parts leaves exactly one
part or three or more parts (empty segments produced by extra separators
are dropped before counting, and a line with zero non-empty parts is the
end-of-header marker instead). -/
theorem bad_part_count_is_malformed (line : List Char)
    (h : (((splitCols line).map trimChars).filter (fun p => !p.isEmpty)).length = 1 ∨
        3 ≤ (((splitCols line).map trimChars).filter (fun p => !p.isEmpty)).length) :
    headerFieldFromLine line = .error .invalid := by
  unfold headerFieldFromLine
  rcases hp : ((splitCols line).map trimChars).filter (fun p => !p.isEmpty) with
    _ | ⟨a, _ | ⟨b, _ | ⟨c, t⟩⟩⟩
  · rw [hp] at h; simp at h
  · rw [hp]
  · rw [hp] at h; simp at h
  · rw [hp]

/-- C6 witness: the amended theorem applied to `a:b:c` (three non-empty
parts) and to `name:` (a single non-empty part, the crate's own
`parse_header_field_name_only` test case). -/
theorem bad_part_count_is_malformed_witness :
    headerFieldFromLine (cs "a:b:c") = .error .invalid ∧
    headerFieldFromLine (cs "name:") = .error .invalid :=
  ⟨bad_part_count_is_malformed _ (Or.inr (by decide)),
   bad_part_count_is_malformed _ (Or.inl (by decide))⟩

/-! ## C7 -/

/-- C7: reading a frame whose body is valid JSON with an integer `seq` and
an unrecognized `type` succeeds at the Generic level, with the envelope
fields and the raw JSON value of the body retained. -/
theorem unrecognized_type_stays_generic (input body tail : List Char) (header : Header)
    (fields : List (String × Json)) (n : Nat) (t : String)
    (hh : Header.fromInput input = (.ok header, body ++ tail))
    (hlen : header.content_length = body.length)
    (hj : parseJson body = some (.obj fields))
    (hseq : getField fields "seq" = some (.num (n : Int)))
    (htype : getField fields "type" = some (.str t))
    (ht1 : t ≠ "request") (ht2 : t ≠ "response") :
    ∃ m : GenericMessage, Message.readFrom input = .ok (.generic m) ∧
      m.seq = n ∧ m.message_type = t ∧ m.raw_value = .obj fields := by
  refine ⟨⟨⟨n, t⟩, .obj fields⟩, ?_, rfl, rfl, rfl⟩
  have hle : header.content_length ≤ body.length + tail.length := by
    simp [hlen]
  have htake : (body ++ tail).take header.content_length = body := by
    rw [hlen]; exact List.take_left body tail
  have hparse : GenericMessage.parse body = .ok ⟨⟨n, t⟩, .obj fields⟩ := by
    have hnn : ¬ ((n : Int) < 0) := Int.not_lt.mpr (Int.natCast_nonneg n)
    simp [GenericMessage.parse, hj, genericMessageSerdeFromJson, hseq, htype,
          deNat, deString, hnn]
  simp [Message.readFrom, GenericMessage.fromInput, hh, hle, htake, hparse,
        GenericMessage.intoSpecialize, ht1, ht2]

/-- C7 witness: the theorem applied to the spec's example frame with body
`\x7b"seq":1,"type":"fake"\x7d`. -/
theorem unrecognized_type_stays_generic_witness :
    ∃ m : GenericMessage, Message.readFrom (frameOf fakeBody) = .ok (.generic m) ∧
      m.seq = 1 ∧ m.message_type = "fake" ∧
      m.raw_value = .obj [("seq", .num 1), ("type", .str "fake")] :=
  unrecognized_type_stays_generic (frameOf fakeBody) fakeBody []
    ⟨fakeBody.length, [.contentLength fakeBody.length]⟩
    [("seq", .num 1), ("type", .str "fake")] 1 "fake"
    rfl rfl rfl rfl rfl (by decide) (by decide)

/-! ## C8 -/

/-- C8: a stream that yields a valid header but ends before
`content_length` body bytes fails with the transport/I-O error kind
(`Error::Io`, from `read_exact` hitting `UnexpectedEof`), not the
malformed-header kind, in all three frame-reading entry points. -/
theorem short_body_is_io_error (input rest : List Char) (header : Header)
    (hh : Header.fromInput input = (.ok header, rest))
    (hshort : rest.length < header.content_length) :
    GenericMessage.fromInput input = (.error .ioError, []) ∧
    Listener.nextMsg input = (.error .ioError, []) ∧
    Message.readFrom input = .err .ioError := by
  have hnle : ¬ header.content_length ≤ rest.length := not_le.mpr hshort
  refine ⟨?_, ?_, ?_⟩ <;>
    simp [GenericMessage.fromInput, Listener.nextMsg, Message.readFrom, hh, hnle]

/-- C8 witness: a valid `Content-Length:5` header followed by only two
body bytes. -/
theorem short_body_is_io_error_witness :
    GenericMessage.fromInput (cs "Content-Length:5\r\n\r\nab") = (.error .ioError, []) ∧
    Listener.nextMsg (cs "Content-Length:5\r\n\r\nab") = (.error .ioError, []) ∧
    Message.readFrom (cs "Content-Length:5\r\n\r\nab") = .err .ioError :=
  short_body_is_io_error _ (cs "ab") ⟨5, [.contentLength 5]⟩ rfl (by decide)

/-! ## C9 -/

/-- Every character of every `':'`-split segment comes from the original
line and is not `':'`. -/
theorem splitCols_sound (line : List Char) :
    ∀ p ∈ splitCols line, ∀ c ∈ p, c ∈ line ∧ ¬ c = ':' := by
  induction line with
  | nil =>
    intro p hp c hc
    simp [splitCols] at hp
    subst hp
    simp at hc
  | cons a as ih =>
    intro p hp c hc
    by_cases ha : a = ':'
    · subst ha
      simp [splitCols] at hp
      rcases hp with hp | hp
      · subst hp; simp at hc
      · have := ih p hp c hc
        exact ⟨List.mem_cons_of_mem _ this.1, this.2⟩
    · rcases hq : splitCols as with _ | ⟨q, qs⟩
      · simp [splitCols, ha, hq] at hp
        subst hp
        simp at hc
        subst hc
        exact ⟨List.mem_cons_self _ _, ha⟩
      · simp [splitCols, ha, hq] at hp
        rcases hp with hp | hp
        · subst hp
          rcases List.mem_cons.mp hc with hc | hc
          · subst hc; exact ⟨List.mem_cons_self _ _, ha⟩
          · have := ih q (by rw [hq]; exact List.mem_cons_self _ _) c hc
            exact ⟨List.mem_cons_of_mem _ this.1, this.2⟩
        · have := ih p (by rw [hq]; exact List.mem_cons_of_mem _ hp) c hc
          exact ⟨List.mem_cons_of_mem _ this.1, this.2⟩

/-- Trimming a list of whitespace characters leaves nothing. -/
theorem trimChars_all_ws (p : List Char) (h : ∀ c ∈ p, c.isWhitespace = true) :
    trimChars p = [] := by
  unfold trimChars
  have h1 : p.dropWhile Char.isWhitespace = [] :=
    List.dropWhile_eq_nil_iff.mpr h
  rw [h1]
  rfl

/-- C9: a header line whose characters are only `':'` and whitespace (for
example `:` or `::`) is classified as the end-of-header marker, exactly as
a blank line is — every split segment trims to empty, so the filtered part
list is empty. -/
theorem separator_ws_line_ends_header (line : List Char)
    (h : ∀ c ∈ line, c = ':' ∨ c.isWhitespace = true) :
    headerFieldFromLine line = .ok none := by
  have hfilter :
      (((splitCols line).map trimChars).filter (fun p => !p.isEmpty)) = [] := by
    rw [List.filter_eq_nil_iff]
    intro a ha
    rcases List.mem_map.mp ha with ⟨p, hp, rfl⟩
    have hws : ∀ c ∈ p, c.isWhitespace = true := by
      intro c hc
      have hcl := splitCols_sound line p hp c hc
      rcases h c hcl.1 with hcol | hw
      · exact absurd hcol hcl.2
      · exact hw
    simp [trimChars_all_ws p hws]
  unfold headerFieldFromLine
  rw [hfilter]

/-- C9 witness: the theorem applied to the line `::`. -/
theorem separator_ws_line_ends_header_witness :
    headerFieldFromLine (cs "::") = .ok none :=
  separator_ws_line_ends_header (cs "::") (by decide)

/-! ## C10 -/

/-- C10: `InitializeResponse::send_to` never panics — `Header::new` always
succeeds, since the single `ContentLength` field it builds is always found
by `from_raw_fields` — and the emitted bytes carry a `Content-Length`
header line whose decimal value is exactly the length of the body bytes
written after the header text (which, per the serializer, ends with the
literal template line rather than a blank line). -/
theorem send_to_length_consistent (body : List Char) :
    InitializeResponse.sendTo body =
      .ok (cs "Content-Length:" ++ Nat.toDigits 10 body.length ++ cs "\r\n" ++
           cs "\x7b\x7d:\x7b\x7d\r\n" ++ body) := by
  simp [InitializeResponse.sendTo, Header.new, Header.fromRawFields, findContentLength,
        Header.intoString, HeaderField.line, cs]

end HeadcrabDap
